import Mathlib

/-!
# Verification of the round outcome engine of the crash-style wagering game

This development embeds the core of the repository — the entropy draw and
response parsing (`src/game/state.ts`) and the round engine
(`startRound` / `update` / `cashOut` / `crash` / `resetRound` in
`src/game/Game.ts`) — as Lean definitions, and proves the stated
properties of the crash-multiplier derivation, the live multiplier curve,
the settlement arbitration and the balance accounting.

JavaScript numbers are modelled as real numbers (exact arithmetic);
`Math.exp` and `Math.log` are `Real.exp` and `Real.log`.  The
asynchronous entropy fetch is modelled by an explicit outcome parameter
(`FetchOutcome`), and the two halves of the `async startRound` around the
`await` are the two functions `startRoundBegin` and `startRoundResume`.
-/

/-! ## Constants (src/game/state.ts) -/

noncomputable section

def COST_TO_PLAY : ℝ := 10
def START_BALANCE : ℝ := 100
def MAX_MULTIPLIER : ℝ := 25
def HOUSE_EDGE : ℝ := 0.06
def TARGET_MULTIPLIER : ℝ := 3.4
def TARGET_TIME : ℝ := 20

/-- `GROWTH_K = Math.log(TARGET_MULTIPLIER) / TARGET_TIME` (src/game/state.ts). -/
def GROWTH_K : ℝ := Real.log TARGET_MULTIPLIER / TARGET_TIME

/-! ## Crash multiplier derivation (RNG.getCrashMultiplier, src/game/state.ts) -/

/-- `getCrashMultiplier`: given the drawn 16-bit integer `r`, computes
`u = (r + 1) / 65536` and returns `Math.min(MAX_MULTIPLIER, (1 - HOUSE_EDGE) / u)`. -/
def RNG.getCrashMultiplier (r : ℕ) : ℝ :=
  min MAX_MULTIPLIER ((1 - HOUSE_EDGE) / ((r + 1) / 65536))

/-! ## The round engine state (fields of class Game, src/game/Game.ts) -/

/-- The `GameState` enum of src/game/state.ts. -/
inductive GameState where
  | IDLE
  | FETCHING_RNG
  | RUNNING
  | CASHED_OUT
  | CRASHED
deriving DecidableEq

/-- The mutable round-relevant fields of the `Game` class. -/
structure Game where
  state : GameState
  balance : ℝ
  roundTime : ℝ
  currentMultiplier : ℝ
  crashMultiplier : ℝ
  cashoutLocked : Bool
  crashLocked : Bool
  endTimer : ℝ

/-! ## Engine operations (src/game/Game.ts) -/

/-- `Game.cashOut`: no-op unless RUNNING and not `cashoutLocked`; otherwise locks
cash-out, credits `COST_TO_PLAY * currentMultiplier`, enters CASHED_OUT and
arms the 1.6 s end timer. -/
def Game.cashOut (g : Game) : Game :=
  if g.state ≠ GameState.RUNNING ∨ g.cashoutLocked then g
  else
    { g with
      cashoutLocked := true
      balance := g.balance + COST_TO_PLAY * g.currentMultiplier
      state := GameState.CASHED_OUT
      endTimer := 1.6 }

/-- `Game.crash`: no-op unless RUNNING and not `crashLocked`; otherwise locks
crash, enters CRASHED (no credit) and arms the 1.6 s end timer. -/
def Game.crash (g : Game) : Game :=
  if g.state ≠ GameState.RUNNING ∨ g.crashLocked then g
  else
    { g with
      crashLocked := true
      state := GameState.CRASHED
      endTimer := 1.6 }

/-- `Game.resetRound`: returns the engine to IDLE with all round fields reset. -/
def Game.resetRound (g : Game) : Game :=
  { g with
    state := GameState.IDLE
    currentMultiplier := 1
    roundTime := 0
    endTimer := 0
    crashMultiplier := MAX_MULTIPLIER
    cashoutLocked := false
    crashLocked := false }

/-- The round-engine part of `Game.update(dt)`: while RUNNING, advance
`roundTime`, recompute `currentMultiplier = Math.min(MAX_MULTIPLIER,
Math.exp(GROWTH_K * roundTime))` and call `crash()` if it reached
`crashMultiplier`; then, if the state is CASHED_OUT or CRASHED, run the end
timer down and `resetRound()` when it expires. -/
def Game.update (g : Game) (dt : ℝ) : Game :=
  let g1 :=
    if g.state = GameState.RUNNING then
      let rt := g.roundTime + dt
      let m := min MAX_MULTIPLIER (Real.exp (GROWTH_K * rt))
      let g' := { g with roundTime := rt, currentMultiplier := m }
      if g'.crashMultiplier ≤ m then g'.crash else g'
    else g
  if g1.state = GameState.CASHED_OUT ∨ g1.state = GameState.CRASHED then
    let g2 := { g1 with endTimer := g1.endTimer - dt }
    if g2.endTimer ≤ 0 then g2.resetRound else g2
  else g1

/-- First half of `async Game.startRound()`, up to the `await` on the entropy
draw: rejects unless IDLE with sufficient balance, else debits the wager and
enters FETCHING_RNG with all round fields initialised. -/
def Game.startRoundBegin (g : Game) : Game :=
  if g.state ≠ GameState.IDLE then g
  else if g.balance < COST_TO_PLAY then g
  else
    { g with
      state := GameState.FETCHING_RNG
      balance := g.balance - COST_TO_PLAY
      roundTime := 0
      currentMultiplier := 1
      crashMultiplier := MAX_MULTIPLIER
      cashoutLocked := false
      crashLocked := false }

/-- Second half of `async Game.startRound()`, after the entropy draw resolved
with value `crash`: discards the stale result unless still FETCHING_RNG, else
stores the crash multiplier and enters RUNNING. -/
def Game.startRoundResume (g : Game) (crash : ℝ) : Game :=
  if g.state ≠ GameState.FETCHING_RNG then g
  else { g with crashMultiplier := crash, state := GameState.RUNNING }

/-- The initial engine state (`balance = START_BALANCE`, IDLE). -/
def Game.initial : Game :=
  { state := GameState.IDLE
    balance := START_BALANCE
    roundTime := 0
    currentMultiplier := 1
    crashMultiplier := MAX_MULTIPLIER
    cashoutLocked := false
    crashLocked := false
    endTimer := 0 }

/-! ## The live multiplier curve -/

/-- The closed form of the live multiplier during RUNNING, as computed by
`Game.update`: `Math.min(MAX_MULTIPLIER, Math.exp(GROWTH_K * t))`. -/
def currentMultiplierAt (t : ℝ) : ℝ :=
  min MAX_MULTIPLIER (Real.exp (GROWTH_K * t))

end

/-! ## Remote-response parsing (src/game/state.ts)

The remote entropy service answers with a JSON object carrying an optional
`encoding` field (`'base64' | 'raw'`, default `'base64'`) and an optional
`random_numbers` array whose entries hold the value as optional strings in
four radices.  `parseInt`, `String.prototype.trim` and `atob` are modelled
below; parsed numbers are modelled as exact integers. -/

/-- The `OutshiftEncoding` union type (`'base64' | 'raw'`). -/
inductive OutshiftEncoding where
  | base64
  | raw
deriving DecidableEq

/-- The `RandomNumberField` record: each radix field is a string, null or
absent — all non-string cases (and the falsy empty string) behave alike in
`decodeValue`, so they are collapsed into `Option String`. -/
structure RandomNumberField where
  binary : Option String := none
  octal : Option String := none
  decimal : Option String := none
  hexadecimal : Option String := none

/-- The `RandomNumberResp` record.  An absent `random_numbers` array and an
empty one are indistinguishable to `payload.random_numbers?.[0]`, so the
field is a plain list. -/
structure RandomNumberResp where
  encoding : Option OutshiftEncoding := none
  random_numbers : List RandomNumberField := []

/-- JavaScript `String.prototype.trim`: strip leading and trailing
whitespace. -/
def trimJS (s : String) : String :=
  String.mk (((s.toList.dropWhile Char.isWhitespace).reverse.dropWhile
    Char.isWhitespace).reverse)

/-- Value of a character as a digit (`0`–`9`, `a`–`z`, `A`–`Z`), as used by
JavaScript `parseInt`. -/
def digitValue (c : Char) : Option ℕ :=
  if '0' ≤ c ∧ c ≤ '9' then some (c.toNat - 48)
  else if 'a' ≤ c ∧ c ≤ 'z' then some (c.toNat - 97 + 10)
  else if 'A' ≤ c ∧ c ≤ 'Z' then some (c.toNat - 65 + 10)
  else none

/-- Accumulate the longest prefix of digits valid in `radix`; `none` means no
digit was consumed yet (`parseInt` returns NaN in that case). -/
def parseDigits (radix : ℕ) : List Char → Option ℕ → Option ℕ
  | [], acc => acc
  | c :: cs, acc =>
    match digitValue c with
    | some d => if d < radix then parseDigits radix cs (some ((acc.getD 0) * radix + d)) else acc
    | none => acc

/-- JavaScript `parseInt(s, radix)` for an explicit radix: skip leading
whitespace, read an optional sign, for radix 16 an optional `0x`/`0X`
prefix, then the longest run of digits valid in the radix; `none` models
NaN (no digit found). -/
def parseIntJS (s : String) (radix : ℕ) : Option ℤ :=
  let cs0 := s.toList.dropWhile Char.isWhitespace
  let sign : ℤ × List Char :=
    match cs0 with
    | '-' :: rest => (-1, rest)
    | '+' :: rest => (1, rest)
    | _ => (1, cs0)
  let cs1 :=
    if radix = 16 then
      match sign.2 with
      | '0' :: 'x' :: rest => rest
      | '0' :: 'X' :: rest => rest
      | _ => sign.2
    else sign.2
  (parseDigits radix cs1 none).map (fun n => sign.1 * (n : ℤ))

/-- Value of a base64 alphabet character. -/
def b64Value (c : Char) : Option ℕ :=
  if 'A' ≤ c ∧ c ≤ 'Z' then some (c.toNat - 65)
  else if 'a' ≤ c ∧ c ≤ 'z' then some (c.toNat - 97 + 26)
  else if '0' ≤ c ∧ c ≤ '9' then some (c.toNat - 48 + 52)
  else if c = '+' then some 62
  else if c = '/' then some 63
  else none

/-- Reassemble 6-bit groups into bytes (a lone trailing group is impossible
after the length check in `atobJS`). -/
def b64Bytes : List ℕ → List ℕ
  | a :: b :: c :: d :: rest =>
    (a * 4 + b / 16) :: ((b % 16) * 16 + c / 4) :: ((c % 4) * 64 + d) :: b64Bytes rest
  | [a, b] => [a * 4 + b / 16]
  | [a, b, c] => [a * 4 + b / 16, (b % 16) * 16 + c / 4]
  | _ => []

/-- Browser `atob` (forgiving-base64): strip ASCII whitespace, strip the
trailing `=` padding when the length is a multiple of four, reject a
leftover length of 1 mod 4 or any character outside the alphabet, then
decode 6-bit groups to bytes; `none` models the thrown
`InvalidCharacterError`. -/
def atobJS (s : String) : Option String :=
  let t0 := s.toList.filter fun c =>
    ¬ (c = ' ' ∨ c = '\t' ∨ c = '\n' ∨ c = '\r' ∨ c = '\x0c')
  let t :=
    if t0.length % 4 = 0 then
      match t0.reverse with
      | '=' :: '=' :: rest => rest.reverse
      | '=' :: rest => rest.reverse
      | _ => t0
    else t0
  if t.length % 4 = 1 then none
  else (t.mapM b64Value).map fun vals => String.mk ((b64Bytes vals).map Char.ofNat)

/-- `decodeValue(value, encoding)` (src/game/state.ts): falsy values (null,
undefined, empty string) decode to null; `raw` trims; `base64` runs `atob`
then trims, any `atob` throw is caught as null. -/
def decodeValue (value : Option String) (encoding : OutshiftEncoding) : Option String :=
  match value with
  | none => none
  | some s =>
    if s = "" then none
    else
      match encoding with
      | OutshiftEncoding.raw => some (trimJS s)
      | OutshiftEncoding.base64 => (atobJS s).map trimJS

/-- `readOutshiftNumber(payload)` (src/game/state.ts): take the first
random-number record (null if absent), default the envelope encoding to
base64, then try decimal, hexadecimal, binary, octal in that order, each
decoded with `decodeValue` and parsed with `parseInt` in its radix; the
first finite parse wins, else null. -/
def readOutshiftNumber (payload : RandomNumberResp) : Option ℤ :=
  match payload.random_numbers.head? with
  | none => none
  | some entry =>
    let encoding := payload.encoding.getD OutshiftEncoding.base64
    match (decodeValue entry.decimal encoding).bind (fun s => parseIntJS s 10) with
    | some v => some v
    | none =>
      match (decodeValue entry.hexadecimal encoding).bind (fun s => parseIntJS s 16) with
      | some v => some v
      | none =>
        match (decodeValue entry.binary encoding).bind (fun s => parseIntJS s 2) with
        | some v => some v
        | none =>
          match (decodeValue entry.octal encoding).bind (fun s => parseIntJS s 8) with
          | some v => some v
          | none => none

/-- `clampUint16(value)` (src/game/state.ts) on an integer input: negative
values clamp to 0, values above 65535 wrap modulo 65536 (`Math.round` of an
integer is itself, and an integer is never NaN). -/
def clampUint16 (v : ℤ) : ℤ :=
  if v < 0 then 0
  else if 65535 < v then v % 65536
  else v

/-- Outcome of the `fetch` + `response.json()` prefix of `getUint16`:
`fail` covers a rejected fetch, a non-ok HTTP status and an unparsable
body (all of which throw into the `catch`); `ok` carries the parsed body. -/
inductive FetchOutcome where
  | fail
  | ok (data : RandomNumberResp)

/-- `RNG.getUint16()` (src/game/state.ts), with the environment made
explicit: `useQRNG` is `SHOULD_USE_QRNG`, `outcome` the result of the
remote fetch, and `fallback` the value the local secure generator would
put into the `Uint16Array` slot (hence taken mod 2^16).  Returns the drawn
value together with the `isQuantum` flag as it is left by the call. -/
def RNG.getUint16 (useQRNG : Bool) (outcome : FetchOutcome) (fallback : ℕ) : ℕ × Bool :=
  if useQRNG = false then (fallback % 65536, false)
  else
    match outcome with
    | FetchOutcome.fail => (fallback % 65536, false)
    | FetchOutcome.ok data =>
      match readOutshiftNumber data with
      | none => (fallback % 65536, false)
      | some v => ((clampUint16 v).toNat, true)

/-- Modelled from the spec: the parsing rule of §4.1 step 3 in the spec's
own words — "decimal, hexadecimal, binary, octal — tried in that priority
order, first one that parses to a finite number wins", each field envelope
decoded before radix-parsing, null when no field parses. -/
def readOutshiftNumberSpec (payload : RandomNumberResp) : Option ℤ :=
  payload.random_numbers.head?.bind fun entry =>
    let encoding := payload.encoding.getD OutshiftEncoding.base64
    let tryField := fun (field : Option String) (radix : ℕ) =>
      (decodeValue field encoding).bind fun s => parseIntJS s radix
    (tryField entry.decimal 10).orElse fun _ =>
      (tryField entry.hexadecimal 16).orElse fun _ =>
        (tryField entry.binary 2).orElse fun _ =>
          tryField entry.octal 8

/-! ## Concrete states used to witness the theorems -/

noncomputable section

/-- A RUNNING round just after launch: wager debited from the initial
balance, multiplier at its start value, a crash threshold of 25. -/
def sampleRunning : Game :=
  { state := GameState.RUNNING
    balance := 90
    roundTime := 0
    currentMultiplier := 1
    crashMultiplier := MAX_MULTIPLIER
    cashoutLocked := false
    crashLocked := false
    endTimer := 0 }

/-- A RUNNING round whose drawn crash threshold is below 1 (the draw
`r = 65535` produces `0.94`). -/
def sampleRunningLow : Game :=
  { sampleRunning with crashMultiplier := 0.94 }

/-- A RUNNING round at live multiplier 2.00 (crash threshold 5.00). -/
def sampleRunningAtTwo : Game :=
  { sampleRunning with currentMultiplier := 2, crashMultiplier := 5, roundTime := 10 }

/-- A round that has just settled by cash-out. -/
def sampleSettled : Game :=
  { sampleRunning with
    state := GameState.CASHED_OUT
    balance := 110
    currentMultiplier := 2
    cashoutLocked := true
    endTimer := 1.6 }

/-- An IDLE engine whose balance is below the wager cost. -/
def samplePoor : Game :=
  { Game.initial with balance := 5 }

/-- An engine awaiting the entropy draw. -/
def sampleFetching : Game :=
  { Game.initial with state := GameState.FETCHING_RNG, balance := 90 }

/-- A remote response whose first record holds the raw decimal string
`"70000"`. -/
def sampleResp : RandomNumberResp :=
  { encoding := some OutshiftEncoding.raw
    random_numbers := [{ decimal := some "70000" }] }

end

/-! ## Helper lemmas on the growth curve -/

lemma growth_k_nonneg : 0 ≤ GROWTH_K := by
  unfold GROWTH_K TARGET_MULTIPLIER TARGET_TIME
  have h1 : (0 : ℝ) ≤ Real.log 3.4 := Real.log_nonneg (by norm_num)
  positivity

lemma one_le_exp_growth {t : ℝ} (ht : 0 ≤ t) : 1 ≤ Real.exp (GROWTH_K * t) := by
  have h : (0 : ℝ) ≤ GROWTH_K * t := mul_nonneg growth_k_nonneg ht
  calc (1 : ℝ) = Real.exp 0 := (Real.exp_zero).symm
    _ ≤ Real.exp (GROWTH_K * t) := Real.exp_le_exp.mpr h

lemma growth_k_mul_twenty : GROWTH_K * 20 = Real.log TARGET_MULTIPLIER := by
  unfold GROWTH_K TARGET_TIME
  field_simp

lemma exp_growth_le_target {t : ℝ} (ht : t ≤ 20) :
    Real.exp (GROWTH_K * t) ≤ TARGET_MULTIPLIER := by
  have h1 : GROWTH_K * t ≤ GROWTH_K * 20 :=
    mul_le_mul_of_nonneg_left ht growth_k_nonneg
  have h2 : Real.exp (GROWTH_K * t) ≤ Real.exp (Real.log TARGET_MULTIPLIER) := by
    rw [← growth_k_mul_twenty]
    exact Real.exp_le_exp.mpr h1
  calc Real.exp (GROWTH_K * t) ≤ Real.exp (Real.log TARGET_MULTIPLIER) := h2
    _ = TARGET_MULTIPLIER := Real.exp_log (by unfold TARGET_MULTIPLIER; norm_num)

lemma exp_growth_lt_max {t : ℝ} (ht : t ≤ 20) :
    Real.exp (GROWTH_K * t) < MAX_MULTIPLIER := by
  have h := exp_growth_le_target ht
  unfold TARGET_MULTIPLIER at h
  unfold MAX_MULTIPLIER
  linarith

/-! ## The claims -/

/-- Claim C1: settlement is exactly-once — once the engine is in CASHED_OUT
or CRASHED, `cashOut()` and `crash()` are no-ops, and `update` neither
changes the balance nor the recorded outcome (the state stays put until the
end timer returns it to IDLE); `cashOut()` and `crash()` remain no-ops
after such an update as well. -/
theorem claim_C1 (g : Game) (dt : ℝ)
    (h : g.state = GameState.CASHED_OUT ∨ g.state = GameState.CRASHED) :
    g.cashOut = g ∧ g.crash = g ∧
    (g.update dt).balance = g.balance ∧
    ((g.update dt).state = g.state ∨ (g.update dt).state = GameState.IDLE) ∧
    (g.update dt).cashOut = g.update dt ∧
    (g.update dt).crash = g.update dt := by
  obtain ⟨st, bal, rt, cm, crm, col, crl, et⟩ := g
  by_cases hle : et - dt ≤ 0 <;>
    rcases h with h | h <;> subst h <;>
    simp [Game.cashOut, Game.crash, Game.update, Game.resetRound, hle]

theorem claim_C1_witness :
    sampleSettled.cashOut = sampleSettled ∧ sampleSettled.crash = sampleSettled ∧
    (sampleSettled.update 1).balance = sampleSettled.balance ∧
    ((sampleSettled.update 1).state = sampleSettled.state ∨
      (sampleSettled.update 1).state = GameState.IDLE) ∧
    (sampleSettled.update 1).cashOut = sampleSettled.update 1 ∧
    (sampleSettled.update 1).crash = sampleSettled.update 1 :=
  claim_C1 sampleSettled 1 (Or.inl rfl)

/-- Claim C2, counterexample: at the drawn integer `R = 65535` the crash
multiplier equals `1 - HOUSE_EDGE = 0.94`, which is NOT in the claimed
interval `(1, MAX_MULTIPLIER]`. -/
theorem claim_C2_counterexample :
    RNG.getCrashMultiplier 65535 = 1 - HOUSE_EDGE ∧
    ¬ 1 < RNG.getCrashMultiplier 65535 := by
  have h : RNG.getCrashMultiplier 65535 = 1 - HOUSE_EDGE := by
    unfold RNG.getCrashMultiplier HOUSE_EDGE MAX_MULTIPLIER
    norm_num
  refine ⟨h, ?_⟩
  rw [h]
  unfold HOUSE_EDGE
  norm_num

/-- Claim C2, amended: for every drawn integer `R ∈ [0, 65535]` the crash
multiplier equals `min(MAX_MULTIPLIER, (1 - h) / ((R + 1) / 65536))` and
lies in `[1 - h, MAX_MULTIPLIER]`; it is strictly above 1 exactly on the
draws `R ≤ 61602`. -/
theorem claim_C2_amended (r : ℕ) (hr : r ≤ 65535) :
    RNG.getCrashMultiplier r
      = min MAX_MULTIPLIER ((1 - HOUSE_EDGE) / ((r + 1) / 65536)) ∧
    1 - HOUSE_EDGE ≤ RNG.getCrashMultiplier r ∧
    RNG.getCrashMultiplier r ≤ MAX_MULTIPLIER ∧
    (r ≤ 61602 → 1 < RNG.getCrashMultiplier r) := by
  have hu : (0:ℝ) < ((r:ℝ) + 1) / 65536 := by positivity
  have hrr : (r:ℝ) ≤ 65535 := by exact_mod_cast hr
  refine ⟨rfl, ?_, min_le_left _ _, ?_⟩
  · unfold RNG.getCrashMultiplier HOUSE_EDGE MAX_MULTIPLIER
    refine le_min (by norm_num) ?_
    rw [le_div_iff₀ hu]
    nlinarith
  · intro hsmall
    have hss : (r:ℝ) ≤ 61602 := by exact_mod_cast hsmall
    unfold RNG.getCrashMultiplier HOUSE_EDGE MAX_MULTIPLIER
    rw [lt_min_iff]
    refine ⟨by norm_num, ?_⟩
    rw [one_lt_div hu, div_lt_iff₀ (by norm_num : (0:ℝ) < 65536)]
    linarith

theorem claim_C2_amended_witness :
    RNG.getCrashMultiplier 0
      = min MAX_MULTIPLIER ((1 - HOUSE_EDGE) / ((((0 : ℕ) : ℝ) + 1) / 65536)) ∧
    1 - HOUSE_EDGE ≤ RNG.getCrashMultiplier 0 ∧
    RNG.getCrashMultiplier 0 ≤ MAX_MULTIPLIER ∧
    ((0 : ℕ) ≤ 61602 → 1 < RNG.getCrashMultiplier 0) :=
  claim_C2_amended 0 (by norm_num)

/-- Claim C3: crash wins ties — in an update step in which the freshly
computed multiplier reaches the crash threshold, the step settles as
CRASHED with the balance untouched, and a cash-out issued after that step
is a no-op (`dt < 1.6` keeps the step short of the settlement display
timer, as every real frame is). -/
theorem claim_C3 (g : Game) (dt : ℝ)
    (hrun : g.state = GameState.RUNNING) (hlock : g.crashLocked = false)
    (hdt : dt < 1.6)
    (hcross : g.crashMultiplier ≤ min MAX_MULTIPLIER (Real.exp (GROWTH_K * (g.roundTime + dt)))) :
    (g.update dt).state = GameState.CRASHED ∧
    (g.update dt).balance = g.balance ∧
    (g.update dt).crashLocked = true ∧
    (g.update dt).cashOut = g.update dt := by
  obtain ⟨st, bal, rt, cm, crm, col, crl, et⟩ := g
  simp only at hrun hlock hcross
  subst hrun; subst hlock
  have hnr : ¬ (1.6 - dt ≤ 0) := by linarith
  simp [Game.update, Game.crash, Game.cashOut, hcross, hnr]

theorem claim_C3_witness :
    (sampleRunningLow.update 1).state = GameState.CRASHED ∧
    (sampleRunningLow.update 1).balance = sampleRunningLow.balance ∧
    (sampleRunningLow.update 1).crashLocked = true ∧
    (sampleRunningLow.update 1).cashOut = sampleRunningLow.update 1 := by
  refine claim_C3 sampleRunningLow 1 rfl rfl (by norm_num) ?_
  show (0.94 : ℝ) ≤ min MAX_MULTIPLIER (Real.exp (GROWTH_K * ((0 : ℝ) + 1)))
  refine le_min (by unfold MAX_MULTIPLIER; norm_num) ?_
  exact le_trans (by norm_num) (one_le_exp_growth (by norm_num))

/-- Claim C4: while RUNNING, the multiplier produced by an update step is
the closed-form curve `min(MAX_MULTIPLIER, exp(GROWTH_K * t))` at the new
elapsed round time (unless the step already reset the round to IDLE);
moreover the curve starts at 1, is monotonically non-decreasing, and
reaches exactly 3.4 at t = 20 in the real-number model. -/
theorem claim_C4 (g : Game) (dt s t : ℝ)
    (hrun : g.state = GameState.RUNNING) (hst : s ≤ t) :
    ((g.update dt).state ≠ GameState.IDLE →
      (g.update dt).currentMultiplier = currentMultiplierAt (g.roundTime + dt)) ∧
    currentMultiplierAt 0 = 1 ∧
    currentMultiplierAt s ≤ currentMultiplierAt t ∧
    currentMultiplierAt 20 = 3.4 := by
  obtain ⟨st, bal, rt, cm, crm, col, crl, et⟩ := g
  simp only at hrun
  subst hrun
  refine ⟨?_, ?_, ?_, ?_⟩
  · cases crl <;>
      by_cases hcross : crm ≤ min MAX_MULTIPLIER (Real.exp (GROWTH_K * (rt + dt))) <;>
      by_cases hle : 1.6 - dt ≤ 0 <;>
      simp [Game.update, Game.crash, Game.resetRound, currentMultiplierAt, hcross, hle]
  · rw [currentMultiplierAt, mul_zero, Real.exp_zero]
    unfold MAX_MULTIPLIER
    norm_num
  · exact min_le_min le_rfl
      (Real.exp_le_exp.mpr (mul_le_mul_of_nonneg_left hst growth_k_nonneg))
  · rw [currentMultiplierAt, growth_k_mul_twenty,
      Real.exp_log (by unfold TARGET_MULTIPLIER; norm_num)]
    unfold MAX_MULTIPLIER TARGET_MULTIPLIER
    norm_num

theorem claim_C4_witness :
    ((sampleRunning.update 1).state ≠ GameState.IDLE →
      (sampleRunning.update 1).currentMultiplier
        = currentMultiplierAt (sampleRunning.roundTime + 1)) ∧
    currentMultiplierAt 0 = 1 ∧
    currentMultiplierAt 0 ≤ currentMultiplierAt 1 ∧
    currentMultiplierAt 20 = 3.4 :=
  claim_C4 sampleRunning 1 0 1 rfl (by norm_num)

/-- Claim C5: the entropy draw always resolves to an integer in
`[0, 65535]`; every failure of the remote path falls back to the local
16-bit value with the quantum flag false, and a successful remote parse
returns the clamped value with the quantum flag true.  `clampUint16`
always lands in `[0, 65535]`. -/
theorem claim_C5 (useQRNG : Bool) (outcome : FetchOutcome) (fallback : ℕ) :
    (RNG.getUint16 useQRNG outcome fallback).1 ≤ 65535 ∧
    (∀ v : ℤ, 0 ≤ clampUint16 v ∧ clampUint16 v ≤ 65535) ∧
    RNG.getUint16 useQRNG FetchOutcome.fail fallback = (fallback % 65536, false) ∧
    (∀ d, readOutshiftNumber d = none →
      RNG.getUint16 useQRNG (FetchOutcome.ok d) fallback = (fallback % 65536, false)) ∧
    (∀ d v, readOutshiftNumber d = some v →
      RNG.getUint16 true (FetchOutcome.ok d) fallback = ((clampUint16 v).toNat, true)) := by
  have hclamp : ∀ v : ℤ, 0 ≤ clampUint16 v ∧ clampUint16 v ≤ 65535 := by
    intro v
    unfold clampUint16
    constructor <;> (split <;> (try split) <;> omega)
  refine ⟨?_, hclamp, ?_, ?_, ?_⟩
  · unfold RNG.getUint16
    cases useQRNG with
    | false => simp; omega
    | true =>
      cases outcome with
      | fail => simp; omega
      | ok d =>
        cases h : readOutshiftNumber d with
        | none => simp [h]; omega
        | some v =>
          have := (hclamp v).2
          simp [h]
          omega
  · cases useQRNG <;> simp [RNG.getUint16]
  · intro d h
    cases useQRNG <;> simp [RNG.getUint16, h]
  · intro d v h
    simp [RNG.getUint16, h]

theorem claim_C5_witness :
    RNG.getUint16 true (FetchOutcome.ok sampleResp) 7 = ((clampUint16 70000).toNat, true) ∧
    RNG.getUint16 true FetchOutcome.fail 7 = (7 % 65536, false) :=
  ⟨(claim_C5 true (FetchOutcome.ok sampleResp) 7).2.2.2.2 sampleResp 70000 rfl,
   (claim_C5 true FetchOutcome.fail 7).2.2.1⟩

/-- Claim C6: the crash threshold is written exactly when the round enters
RUNNING (`startRoundResume`) and no settlement or update step changes it
while the round lasts; and after any update step that leaves the engine
RUNNING, the live multiplier is strictly below the threshold. -/
theorem claim_C6 (g gf : Game) (dt v : ℝ)
    (hrun : g.state = GameState.RUNNING) (hlock : g.crashLocked = false)
    (hf : gf.state = GameState.FETCHING_RNG) :
    ((g.update dt).state ≠ GameState.IDLE →
      (g.update dt).crashMultiplier = g.crashMultiplier) ∧
    (g.cashOut).crashMultiplier = g.crashMultiplier ∧
    (g.crash).crashMultiplier = g.crashMultiplier ∧
    ((g.update dt).state = GameState.RUNNING →
      (g.update dt).currentMultiplier < (g.update dt).crashMultiplier) ∧
    (gf.startRoundResume v).crashMultiplier = v ∧
    (gf.startRoundResume v).state = GameState.RUNNING := by
  obtain ⟨st, bal, rt, cm, crm, col, crl, et⟩ := g
  obtain ⟨st2, bal2, rt2, cm2, crm2, col2, crl2, et2⟩ := gf
  simp only at hrun hlock hf
  subst hrun; subst hlock; subst hf
  refine ⟨?_, ?_, ?_, ?_, ?_, ?_⟩
  · by_cases hcross : crm ≤ min MAX_MULTIPLIER (Real.exp (GROWTH_K * (rt + dt))) <;>
      by_cases hle : 1.6 - dt ≤ 0 <;>
      simp [Game.update, Game.crash, Game.resetRound, hcross, hle]
  · cases col <;> simp [Game.cashOut]
  · simp [Game.crash]
  · by_cases hcross : crm ≤ min MAX_MULTIPLIER (Real.exp (GROWTH_K * (rt + dt))) <;>
      by_cases hle : 1.6 - dt ≤ 0 <;>
      simp [Game.update, Game.crash, Game.resetRound, hcross, hle] <;>
      exact min_lt_iff.mp (lt_of_not_le hcross)
  · simp [Game.startRoundResume]
  · simp [Game.startRoundResume]

theorem claim_C6_witness :
    ((sampleRunning.update 1).state ≠ GameState.IDLE →
      (sampleRunning.update 1).crashMultiplier = sampleRunning.crashMultiplier) ∧
    (sampleRunning.cashOut).crashMultiplier = sampleRunning.crashMultiplier ∧
    (sampleRunning.crash).crashMultiplier = sampleRunning.crashMultiplier ∧
    ((sampleRunning.update 1).state = GameState.RUNNING →
      (sampleRunning.update 1).currentMultiplier < (sampleRunning.update 1).crashMultiplier) ∧
    (sampleFetching.startRoundResume 5).crashMultiplier = 5 ∧
    (sampleFetching.startRoundResume 5).state = GameState.RUNNING :=
  claim_C6 sampleRunning sampleFetching 1 5 rfl rfl rfl

/-- Claim C7: balance accounting — a successful round start debits exactly
`COST_TO_PLAY = 10`; an unlocked cash-out while RUNNING credits exactly
`COST_TO_PLAY * currentMultiplier`; a crash credits nothing. -/
theorem claim_C7 (g gr : Game)
    (hidle : g.state = GameState.IDLE) (hbal : COST_TO_PLAY ≤ g.balance)
    (hrun : gr.state = GameState.RUNNING) (hlock : gr.cashoutLocked = false) :
    (g.startRoundBegin).balance = g.balance - COST_TO_PLAY ∧
    (g.startRoundBegin).state = GameState.FETCHING_RNG ∧
    (gr.cashOut).balance = gr.balance + COST_TO_PLAY * gr.currentMultiplier ∧
    (gr.cashOut).state = GameState.CASHED_OUT ∧
    (gr.crash).balance = gr.balance ∧
    COST_TO_PLAY = 10 := by
  obtain ⟨st, bal, rt, cm, crm, col, crl, et⟩ := g
  obtain ⟨st2, bal2, rt2, cm2, crm2, col2, crl2, et2⟩ := gr
  simp only at hidle hbal hrun hlock
  subst hidle; subst hrun; subst hlock
  have hnlt : ¬ (bal < COST_TO_PLAY) := not_lt.mpr hbal
  unfold COST_TO_PLAY at hnlt
  cases crl2 <;>
    simp [Game.startRoundBegin, Game.cashOut, Game.crash, hnlt, COST_TO_PLAY]

theorem claim_C7_witness :
    ((Game.initial.startRoundBegin).balance = Game.initial.balance - COST_TO_PLAY ∧
      (Game.initial.startRoundBegin).state = GameState.FETCHING_RNG ∧
      (sampleRunningAtTwo.cashOut).balance
        = sampleRunningAtTwo.balance + COST_TO_PLAY * sampleRunningAtTwo.currentMultiplier ∧
      (sampleRunningAtTwo.cashOut).state = GameState.CASHED_OUT ∧
      (sampleRunningAtTwo.crash).balance = sampleRunningAtTwo.balance ∧
      COST_TO_PLAY = 10) ∧
    Game.initial.balance - COST_TO_PLAY = 90 ∧
    sampleRunningAtTwo.balance + COST_TO_PLAY * sampleRunningAtTwo.currentMultiplier = 110 ∧
    sampleRunningAtTwo.balance = 90 :=
  ⟨claim_C7 Game.initial sampleRunningAtTwo rfl
      (by unfold Game.initial COST_TO_PLAY START_BALANCE; norm_num) rfl rfl,
   by unfold Game.initial COST_TO_PLAY START_BALANCE; norm_num,
   by unfold sampleRunningAtTwo sampleRunning COST_TO_PLAY; norm_num,
   by unfold sampleRunningAtTwo sampleRunning; norm_num⟩

/-- Claim C8: a start request in IDLE with a balance below the wager cost
is rejected with no transition and no change of any field. -/
theorem claim_C8 (g : Game)
    (h1 : g.state = GameState.IDLE) (h2 : g.balance < COST_TO_PLAY) :
    g.startRoundBegin = g := by
  simp [Game.startRoundBegin, h1, h2]

theorem claim_C8_witness : samplePoor.startRoundBegin = samplePoor :=
  claim_C8 samplePoor rfl (by unfold samplePoor Game.initial COST_TO_PLAY; norm_num)

/-- Claim C9: remote-response parsing tries decimal, hexadecimal, binary,
octal of the first record in that priority order, envelope-decoding each
field before radix-parsing, and yields null when no field parses — the
source parser coincides with that specification. -/
theorem claim_C9 (p : RandomNumberResp) : readOutshiftNumber p = readOutshiftNumberSpec p := by
  unfold readOutshiftNumber readOutshiftNumberSpec
  cases hh : p.random_numbers.head? with
  | none => simp
  | some entry =>
    simp only [Option.bind_eq_bind, Option.some_bind]
    cases h1 : (decodeValue entry.decimal (p.encoding.getD OutshiftEncoding.base64)).bind
        (fun s => parseIntJS s 10) with
    | some v => simp [Option.orElse]
    | none =>
      cases h2 : (decodeValue entry.hexadecimal (p.encoding.getD OutshiftEncoding.base64)).bind
          (fun s => parseIntJS s 16) with
      | some v => simp [Option.orElse]
      | none =>
        cases h3 : (decodeValue entry.binary (p.encoding.getD OutshiftEncoding.base64)).bind
            (fun s => parseIntJS s 2) with
        | some v => simp [Option.orElse]
        | none =>
          cases h4 : (decodeValue entry.octal (p.encoding.getD OutshiftEncoding.base64)).bind
              (fun s => parseIntJS s 8) with
          | some v => simp [Option.orElse]
          | none => simp [Option.orElse]

/-- Claim C10: every draw `R ≥ 61603` produces a crash threshold strictly
below 1 (and `R = 61602` is the last draw above 1); a RUNNING round with
such a threshold settles CRASHED — never CASHED_OUT — on its first update
step with the balance untouched, and a cash-out taken before that step
pays at most the wager back (multiplier still at its start value 1). -/
theorem claim_C10 (r : ℕ) (g : Game) (dt : ℝ)
    (hr : 61603 ≤ r)
    (hrun : g.state = GameState.RUNNING) (hlock : g.crashLocked = false)
    (hcm : g.crashMultiplier < 1)
    (ht : 0 ≤ g.roundTime) (hdt : 0 ≤ dt) (hmul : g.currentMultiplier ≤ 1) :
    RNG.getCrashMultiplier r < 1 ∧
    1 < RNG.getCrashMultiplier 61602 ∧
    (g.update dt).state ≠ GameState.RUNNING ∧
    (g.update dt).state ≠ GameState.CASHED_OUT ∧
    (g.update dt).balance = g.balance ∧
    (g.cashOut).balance ≤ g.balance + COST_TO_PLAY := by
  have hu : (0:ℝ) < ((r:ℝ) + 1) / 65536 := by positivity
  have hrr : (61603:ℝ) ≤ (r:ℝ) := by exact_mod_cast hr
  have ha : RNG.getCrashMultiplier r < 1 := by
    unfold RNG.getCrashMultiplier HOUSE_EDGE
    refine lt_of_le_of_lt (min_le_right _ _) ?_
    rw [div_lt_one hu, lt_div_iff₀ (by norm_num : (0:ℝ) < 65536)]
    linarith
  have hb : 1 < RNG.getCrashMultiplier 61602 := by
    unfold RNG.getCrashMultiplier HOUSE_EDGE MAX_MULTIPLIER
    rw [lt_min_iff]
    constructor
    · norm_num
    · rw [one_lt_div (by positivity)]
      norm_num
  obtain ⟨st, bal, rt, cm, crm, col, crl, et⟩ := g
  simp only at hrun hlock hcm ht hmul
  subst hrun; subst hlock
  have hm1 : (1:ℝ) ≤ min MAX_MULTIPLIER (Real.exp (GROWTH_K * (rt + dt))) :=
    le_min (by unfold MAX_MULTIPLIER; norm_num) (one_le_exp_growth (add_nonneg ht hdt))
  have hcross : crm ≤ min MAX_MULTIPLIER (Real.exp (GROWTH_K * (rt + dt))) :=
    le_trans (le_of_lt hcm) hm1
  refine ⟨ha, hb, ?_, ?_, ?_, ?_⟩
  · by_cases hle : 1.6 - dt ≤ 0 <;>
      simp [Game.update, Game.crash, Game.resetRound, hcross, hle]
  · by_cases hle : 1.6 - dt ≤ 0 <;>
      simp [Game.update, Game.crash, Game.resetRound, hcross, hle]
  · by_cases hle : 1.6 - dt ≤ 0 <;>
      simp [Game.update, Game.crash, Game.resetRound, hcross, hle]
  · cases col
    · simp [Game.cashOut, COST_TO_PLAY]
      nlinarith
    · simp [Game.cashOut, COST_TO_PLAY]

theorem claim_C10_witness :
    RNG.getCrashMultiplier 65535 < 1 ∧
    1 < RNG.getCrashMultiplier 61602 ∧
    (sampleRunningLow.update 1).state ≠ GameState.RUNNING ∧
    (sampleRunningLow.update 1).state ≠ GameState.CASHED_OUT ∧
    (sampleRunningLow.update 1).balance = sampleRunningLow.balance ∧
    (sampleRunningLow.cashOut).balance ≤ sampleRunningLow.balance + COST_TO_PLAY :=
  claim_C10 65535 sampleRunningLow 1 (by norm_num) rfl rfl
    (by unfold sampleRunningLow sampleRunning; norm_num)
    (by unfold sampleRunningLow sampleRunning; norm_num)
    (by norm_num)
    (by unfold sampleRunningLow sampleRunning; norm_num)
